import Mathlib

/-!
Shallow embedding of the cpufreq core of drivers/cpufreq/cpufreq.c
(DORIMANX_LG_STOCK_LP_KERNEL).  External collaborators (platform driver,
notifier observers, PM-QoS, sysfs, module system) are modelled as oracle
parameters; per-CPU tables and the policy heap are modelled as functions
from CPU/heap ids.  The configuration modelled is the one the vendor
kernel builds: CONFIG_SMP and CONFIG_HOTPLUG_CPU enabled,
CONFIG_UNI_CPU_POLICY_LIMIT and CONFIG_MULTI_CPU_POLICY_LIMIT disabled.
-/

/-- Kernel error codes used by the file (returned negated). -/
def EINVAL : Int := 22

def ENOMEM : Int := 12

def EBUSY : Int := 16

/-- CPUFREQ_POLICY_POWERSAVE from include/linux/cpufreq.h. -/
def CPUFREQ_POLICY_POWERSAVE : Nat := 1

/-- CPUFREQ_POLICY_PERFORMANCE from include/linux/cpufreq.h. -/
def CPUFREQ_POLICY_PERFORMANCE : Nat := 2

/-- Pointwise update of a table modelled as a function. -/
def upd {α : Type} (f : Nat → α) (k : Nat) (v : α) : Nat → α :=
  fun i => if i = k then v else f i

@[simp] theorem upd_same {α : Type} (f : Nat → α) (k : Nat) (v : α) : upd f k v k = v := by
  simp [upd]

@[simp] theorem upd_other {α : Type} (f : Nat → α) (k i : Nat) (v : α) (h : i ≠ k) :
    upd f k v i = f i := by
  simp [upd, h]

/-- struct cpufreq_cpuinfo: hardware limits reported by the platform driver. -/
structure Cpuinfo where
  min_freq : Nat
  max_freq : Nat
  transition_latency : Nat
deriving DecidableEq

/-- struct cpufreq_governor: name and latency requirement (the governor
callback itself is an oracle, see GovEnv.govRun). -/
structure Governor where
  name : String
  max_transition_latency : Nat
deriving DecidableEq

/-- Events passed to __cpufreq_governor (CPUFREQ_GOV_START/STOP/LIMITS). -/
inductive GovEvent where
  | start
  | stop
  | limits
deriving DecidableEq

/-- One invocation of a governor callback: which governor, which event,
and the value the callback returned. -/
structure GovCall where
  gname : String
  event : GovEvent
  ret : Int
deriving DecidableEq

/-- The user_policy sub-structure of struct cpufreq_policy. -/
structure UserPolicy where
  min : Nat
  max : Nat
  policy : Nat
  governor : Option Governor
deriving DecidableEq

/-- struct cpufreq_policy.  cpus/related_cpus are cpumasks modelled as
lists; `policy` is the CPUFREQ_POLICY_* kind used by setpolicy drivers. -/
structure Policy where
  cpu : Nat
  cpus : List Nat
  related_cpus : List Nat
  min : Nat
  max : Nat
  cur : Nat
  util : Nat
  policy : Nat
  governor : Option Governor
  user_policy : UserPolicy
  cpuinfo : Cpuinfo
deriving DecidableEq

/-- Oracles consumed by __cpufreq_governor: the fallback performance
governor (CONFIG_CPU_FREQ_GOV_PERFORMANCE), try_module_get on the
governor's module, and the governor callback's return value. -/
structure GovEnv where
  perfGov : Option Governor
  moduleGet : String → Bool
  govRun : String → GovEvent → Int

/-- Shallow embedding of __cpufreq_governor (cpufreq.c:2134).  Returns the
callback result, the (possibly fallback-substituted) policy, and the list
of governor callbacks actually made.  The `none` governor case would be a
null dereference in C and is unreachable in the modelled flows. -/
def cpufreq_governor (genv : GovEnv) (policy : Policy) (event : GovEvent) :
    Int × Policy × List GovCall :=
  match policy.governor with
  | none => (-EINVAL, policy, [])
  | some g0 =>
    let sub : Policy × Option Governor :=
      if g0.max_transition_latency ≠ 0 ∧
          policy.cpuinfo.transition_latency > g0.max_transition_latency then
        match genv.perfGov with
        | none => (policy, none)
        | some gov => ({ policy with governor := some gov }, some gov)
      else (policy, some g0)
    match sub with
    | (policy1, none) => (-EINVAL, policy1, [])
    | (policy1, some g) =>
      if genv.moduleGet g.name then
        let r := genv.govRun g.name event
        (r, policy1, [⟨g.name, event, r⟩])
      else (-EINVAL, policy1, [])

/-- Oracles consumed by __cpufreq_set_policy: PM-QoS floor/ceiling values,
the driver verify hook (which may clamp the candidate bounds), the three
policy-notifier broadcasts (observers may mutate the candidate bounds in
place), and the setpolicy driver hook. -/
structure SetEnv where
  qosMin : Nat
  qosMax : Nat
  verify : Nat → Nat → Int × Nat × Nat
  adjust : Nat → Nat → Nat × Nat
  incompatible : Nat → Nat → Nat × Nat
  notify : Nat → Nat → Nat × Nat
  hasSetpolicy : Bool
  setpolicyRet : Int

/-- Candidate min after the PM-QoS clamp of cpufreq.c:2282-2291. -/
def qosClampedMin (env : SetEnv) (data : Policy) (pmin : Nat) : Nat :=
  max pmin (min env.qosMin data.user_policy.max)

/-- Candidate max after the PM-QoS clamp of cpufreq.c:2284-2292. -/
def qosClampedMax (env : SetEnv) (data : Policy) (pmax : Nat) : Nat :=
  min pmax (max env.qosMax data.user_policy.min)

/-- The rejection test of cpufreq.c:2297-2298, applied to the clamped
candidate bounds. -/
def boundsConflict (env : SetEnv) (data : Policy) (pmin pmax : Nat) : Bool :=
  decide (qosClampedMin env data pmin > data.user_policy.max) ||
  decide (qosClampedMax env data pmax < data.user_policy.min)

/-- First driver verify invocation (cpufreq.c:2304) on the clamped bounds. -/
def verifyStage1 (env : SetEnv) (data : Policy) (pmin pmax : Nat) : Int × Nat × Nat :=
  env.verify (qosClampedMin env data pmin) (qosClampedMax env data pmax)

/-- Candidate bounds after the ADJUST and INCOMPATIBLE notifier chains
(cpufreq.c:2309-2314). -/
def notifiedBounds (env : SetEnv) (data : Policy) (pmin pmax : Nat) : Nat × Nat :=
  let v1 := verifyStage1 env data pmin pmax
  let a := env.adjust v1.2.1 v1.2.2
  env.incompatible a.1 a.2

/-- Second driver verify invocation (cpufreq.c:2318) on the notified bounds. -/
def verifyStage2 (env : SetEnv) (data : Policy) (pmin pmax : Nat) : Int × Nat × Nat :=
  let b := notifiedBounds env data pmin pmax
  env.verify b.1 b.2

/-- Result of __cpufreq_set_policy: return value, the live policy (`data`)
on exit, the candidate (`policy`) on exit, and the governor callbacks made. -/
structure SPRes where
  ret : Int
  data : Policy
  policy : Policy
  calls : List GovCall
deriving DecidableEq

/-- Shallow embedding of __cpufreq_set_policy (cpufreq.c:2271-2397) with
CONFIG_UNI_CPU_POLICY_LIMIT disabled.  `data` is the live policy, `policy0`
the requested candidate.  On every exit path the candidate's min/max are
restored to the requested pmin/pmax (cpufreq.c:2393-2395). -/
def cpufreq_set_policy (env : SetEnv) (genv : GovEnv) (data policy0 : Policy) : SPRes :=
  let pmin := policy0.min
  let pmax := policy0.max
  let policy1 := { policy0 with
    min := qosClampedMin env data pmin,
    max := qosClampedMax env data pmax,
    cpuinfo := data.cpuinfo }
  if boundsConflict env data pmin pmax then
    ⟨-EINVAL, data, { policy1 with min := pmin, max := pmax }, []⟩
  else
    let v1 := verifyStage1 env data pmin pmax
    let policy2 := { policy1 with min := v1.2.1, max := v1.2.2 }
    if v1.1 ≠ 0 then
      ⟨v1.1, data, { policy2 with min := pmin, max := pmax }, []⟩
    else
      let b := notifiedBounds env data pmin pmax
      let policy3 := { policy2 with min := b.1, max := b.2 }
      let v2 := verifyStage2 env data pmin pmax
      let policy4 := { policy3 with min := v2.2.1, max := v2.2.2 }
      if v2.1 ≠ 0 then
        ⟨v2.1, data, { policy4 with min := pmin, max := pmax }, []⟩
      else
        let n := env.notify policy4.min policy4.max
        let policy5 := { policy4 with min := n.1, max := n.2 }
        let data1 := { data with min := policy5.min, max := policy5.max }
        if env.hasSetpolicy then
          let data2 := { data1 with policy := policy5.policy }
          ⟨env.setpolicyRet, data2, { policy5 with min := pmin, max := pmax }, []⟩
        else
          if policy5.governor ≠ data1.governor then
            let old_gov := data1.governor
            let stopStep : Policy × List GovCall :=
              if data1.governor ≠ none then
                let s := cpufreq_governor genv data1 .stop
                (s.2.1, s.2.2)
              else (data1, [])
            let data3 := { stopStep.1 with governor := policy5.governor }
            let st := cpufreq_governor genv data3 .start
            if st.1 ≠ 0 then
              if old_gov ≠ none then
                let data5 := { st.2.1 with governor := old_gov }
                let st2 := cpufreq_governor genv data5 .start
                ⟨-EINVAL, st2.2.1, { policy5 with min := pmin, max := pmax },
                  stopStep.2 ++ st.2.2 ++ st2.2.2⟩
              else
                ⟨-EINVAL, st.2.1, { policy5 with min := pmin, max := pmax },
                  stopStep.2 ++ st.2.2⟩
            else
              let lim := cpufreq_governor genv st.2.1 .limits
              ⟨0, lim.2.1, { policy5 with min := pmin, max := pmax },
                stopStep.2 ++ st.2.2 ++ lim.2.2⟩
          else
            let lim := cpufreq_governor genv data1 .limits
            ⟨0, lim.2.1, { policy5 with min := pmin, max := pmax }, lim.2.2⟩

/-- show_scaling_min_freq: show_one(scaling_min_freq, min) at cpufreq.c:448. -/
def show_scaling_min_freq (policy : Policy) : Nat := policy.min

/-- show_scaling_max_freq: show_one(scaling_max_freq, max) at cpufreq.c:449. -/
def show_scaling_max_freq (policy : Policy) : Nat := policy.max

/-- show_policy_min_freq: show_one(policy_min_freq, user_policy.min) at cpufreq.c:451. -/
def show_policy_min_freq (policy : Policy) : Nat := policy.user_policy.min

/-- show_policy_max_freq: show_one(policy_max_freq, user_policy.max) at cpufreq.c:452. -/
def show_policy_max_freq (policy : Policy) : Nat := policy.user_policy.max

/-- store_one(scaling_min_freq, min) at cpufreq.c:472-511: the sysfs write
handler for scaling_min_freq.  `lookupOk` models cpufreq_get_policy
succeeding, `maxLock` models get_max_lock(cpu) (the board battery limit
hook), `value` the parsed "%u". -/
def store_scaling_min_freq (env : SetEnv) (genv : GovEnv) (lookupOk : Bool)
    (maxLock : Nat) (policy : Policy) (value : Nat) : Int × Policy :=
  if ¬ lookupOk then (-EINVAL, policy)
  else
    let np1 := { policy with min := policy.user_policy.min, max := policy.user_policy.max }
    let np2 := { np1 with min := value }
    let v := env.verify np2.min np2.max
    let np3 := { np2 with min := v.2.1, max := v.2.2 }
    let np4 := if maxLock > 0 ∧ np3.max > maxLock then { np3 with max := maxLock } else np3
    let live1 := { policy with
      user_policy := { policy.user_policy with max := np4.max, min := np4.min } }
    let res := cpufreq_set_policy env genv live1 np4
    let live2 := { res.data with
      user_policy := { res.data.user_policy with min := res.policy.min } }
    (res.ret, live2)

/-- store_one(scaling_max_freq, max) at cpufreq.c:472-512. -/
def store_scaling_max_freq (env : SetEnv) (genv : GovEnv) (lookupOk : Bool)
    (maxLock : Nat) (policy : Policy) (value : Nat) : Int × Policy :=
  if ¬ lookupOk then (-EINVAL, policy)
  else
    let np1 := { policy with min := policy.user_policy.min, max := policy.user_policy.max }
    let np2 := { np1 with max := value }
    let v := env.verify np2.min np2.max
    let np3 := { np2 with min := v.2.1, max := v.2.2 }
    let np4 := if maxLock > 0 ∧ np3.max > maxLock then { np3 with max := maxLock } else np3
    let live1 := { policy with
      user_policy := { policy.user_policy with max := np4.max, min := np4.min } }
    let res := cpufreq_set_policy env genv live1 np4
    let live2 := { res.data with
      user_policy := { res.data.user_policy with max := res.policy.max } }
    (res.ret, live2)

/-- Shallow embedding of the lock_policy_rwsem(mode, cpu) macro body
(cpufreq.c:81-94).  `policyCpu` is per_cpu(cpufreq_policy_cpu), `online`
the cpu_online test as evaluated after the semaphore is taken, `sem` the
per-policy-cpu hold count.  Returns `none` for the BUG_ON(policy_cpu == -1)
case, otherwise the C return value and the final hold counts. -/
def lock_policy_rwsem_mode (policyCpu : Nat → Int) (online : Nat → Bool)
    (sem : Nat → Nat) (cpu : Nat) : Option (Int × (Nat → Nat)) :=
  if policyCpu cpu = -1 then none
  else
    let pc := (policyCpu cpu).toNat
    let sem1 := upd sem pc (sem pc + 1)
    if ¬ online cpu then
      some (-1, upd sem1 pc (sem1 pc - 1))
    else
      some (0, sem1)

/-- lock_policy_rwsem_read (cpufreq.c:96): the macro instantiated at
mode = read. -/
def lock_policy_rwsem_read (policyCpu : Nat → Int) (online : Nat → Bool)
    (sem : Nat → Nat) (cpu : Nat) : Option (Int × (Nat → Nat)) :=
  lock_policy_rwsem_mode policyCpu online sem cpu

/-- lock_policy_rwsem_write (cpufreq.c:98): the macro instantiated at
mode = write. -/
def lock_policy_rwsem_write (policyCpu : Nat → Int) (online : Nat → Bool)
    (sem : Nat → Nat) (cpu : Nat) : Option (Int × (Nat → Nat)) :=
  lock_policy_rwsem_mode policyCpu online sem cpu

/-- struct cpufreq_freqs (without the flags field, which merely echoes the
driver flags). -/
structure Freqs where
  cpu : Nat
  old : Nat
  new : Nat
deriving DecidableEq

/-- The two transition notification phases. -/
inductive TransState where
  | prechange
  | postchange
deriving DecidableEq

/-- Static properties of the registered platform driver used by the
transition/repair paths. -/
structure DriverEnv where
  hasGet : Bool
  hasTarget : Bool
  hasExit : Bool
  hasBios : Bool
  constLoops : Bool
  getFreq : Nat → Nat

/-- Per-possibly-offline-CPU snapshot: per_cpu(cpufreq_policy_save, cpu)
(cpufreq.c:51-53). -/
structure SavedPolicy where
  gov : String
  min : Nat
  max : Nat
deriving DecidableEq

/-- Global mutable state of the core: online CPUs, the CPU-to-policy map
(per_cpu cpufreq_cpu_data, as heap ids), the policy heap, the owning-CPU
map (per_cpu cpufreq_policy_cpu), the hotplug snapshots, and the next
fresh heap id for allocation. -/
structure World where
  online : List Nat
  cpuData : Nat → Option Nat
  heap : Nat → Policy
  policyCpu : Nat → Int
  save : Nat → SavedPolicy
  nextId : Nat

/-- Shallow embedding of cpufreq_notify_transition (cpufreq.c:305-350).
Returns the freqs struct as left by the call (PRECHANGE may correct
freqs.old), the world (POSTCHANGE may update the policy's cur), and the
broadcasts made on the transition notifier chain. -/
def cpufreq_notify_transition (drv : DriverEnv) (w : World) (freqs : Freqs)
    (state : TransState) : Freqs × World × List (TransState × Freqs) :=
  let pid := w.cpuData freqs.cpu
  match state with
  | .prechange =>
    let freqs1 :=
      if ¬ drv.constLoops then
        match pid with
        | some i =>
          let p := w.heap i
          if p.cpu = freqs.cpu ∧ p.cur ≠ 0 ∧ p.cur ≠ freqs.old then
            { freqs with old := p.cur }
          else freqs
        | none => freqs
      else freqs
    (freqs1, w, [(.prechange, freqs1)])
  | .postchange =>
    let w1 :=
      match pid with
      | some i =>
        if (w.heap i).cpu = freqs.cpu then
          { w with heap := upd w.heap i { w.heap i with cur := freqs.new } }
        else w
      | none => w
    (freqs, w1, [(.postchange, freqs)])

/-- Shallow embedding of cpufreq_out_of_sync (cpufreq.c:1626-1639): the
synthesized PRECHANGE+POSTCHANGE pair for a detected desync. -/
def cpufreq_out_of_sync (drv : DriverEnv) (w : World) (cpu oldFreq newFreq : Nat) :
    World × List (TransState × Freqs) :=
  let freqs : Freqs := ⟨cpu, oldFreq, newFreq⟩
  let r1 := cpufreq_notify_transition drv w freqs .prechange
  let r2 := cpufreq_notify_transition drv r1.2.1 r1.1 .postchange
  (r2.2.1, r1.2.2 ++ r2.2.2)

/-- Shallow embedding of __cpufreq_get (cpufreq.c:1704-1725).  Returns the
queried frequency, the world, the transition broadcasts, and whether
schedule_work(&policy->update) was invoked.  `none` models the null
dereference the C code makes when the CPU has no policy but the driver
query returns nonzero. -/
def cpufreq_get_core (drv : DriverEnv) (w : World) (cpu : Nat) :
    Option (Nat × World × List (TransState × Freqs) × Bool) :=
  if ¬ drv.hasGet then some (0, w, [], false)
  else
    let q := drv.getFreq cpu
    match w.cpuData cpu with
    | none =>
      if q ≠ 0 then none
      else some (q, w, [], false)
    | some i =>
      let p := w.heap i
      if q ≠ 0 ∧ p.cur ≠ 0 ∧ ¬ drv.constLoops ∧ q ≠ p.cur then
        let r := cpufreq_out_of_sync drv w cpu p.cur q
        some (q, r.1, r.2, true)
      else some (q, w, [], false)

/-- ASCII lower-casing of one character code, for the strnicmp model. -/
def lowerCode (c : Char) : Nat :=
  if 65 ≤ c.toNat ∧ c.toNat ≤ 90 then c.toNat + 32 else c.toNat

/-- Case-insensitive governor-name comparison (strnicmp with
CPUFREQ_NAME_LEN, wide enough for every real governor name). -/
def nameMatches (a b : String) : Bool :=
  a.data.map lowerCode == b.data.map lowerCode

/-- Shallow embedding of __find_governor (cpufreq.c:370-379) over the
registered governor list. -/
def find_governor (govs : List Governor) (s : String) : Option Governor :=
  govs.find? (fun t => nameMatches s t.name)

/-- Oracles for the CPU lifecycle paths: the platform driver's static
shape, init results, the policy-notifier CPUFREQ_START broadcast, sysfs
results, and module/allocation success. -/
structure CoreEnv where
  drv : DriverEnv
  setEnv : SetEnv
  govEnv : GovEnv
  governors : List Governor
  defaultGov : Governor
  moduleGetOk : Bool
  allocOk : Bool
  initRet : Int
  initMin : Nat
  initMax : Nat
  initCur : Nat
  initCpuinfo : Cpuinfo
  initRelated : List Nat
  startChain : Policy → Policy
  kobjRet : Int
  drvAttrRet : Int
  cpuinfoCurRet : Int
  scalingCurRet : Int
  biosRet : Int
  symlinkRet : Nat → Int

/-- Calls to cpufreq_driver->exit and to governor callbacks made by a
lifecycle operation. -/
structure Trace where
  exits : List Nat
  govCalls : List GovCall
deriving DecidableEq

/-- The zeroed policy allocated by cpufreq_add_dev (kzalloc plus
policy->cpu = cpu and cpus = cpumask_of(cpu), cpufreq.c:1338-1349). -/
def blankPolicy (cpu : Nat) : Policy :=
  { cpu := cpu, cpus := [cpu], related_cpus := [], min := 0, max := 0, cur := 0,
    util := 0, policy := 0, governor := none,
    user_policy := { min := 0, max := 0, policy := 0, governor := none },
    cpuinfo := { min_freq := 0, max_freq := 0, transition_latency := 0 } }

/-- Shallow embedding of cpufreq_add_dev_policy (cpufreq.c:1100-1189):
restore of the hotplug snapshot, then the domain-merge scan for an
already-managed sibling.  `nid` is the heap id of the provisional policy.
Returns (ret, world, trace); ret = 1 means managed CPU, symlinked. -/
def cpufreq_add_dev_policy (env : CoreEnv) (w0 : World) (cpu nid : Nat) :
    Int × World × Trace :=
  let s := w0.save cpu
  let p0 := w0.heap nid
  let p1 := match find_governor env.governors s.gov with
            | some gov => { p0 with governor := some gov }
            | none => p0
  let p2 := if s.min ≠ 0 then
      { p1 with min := s.min, user_policy := { p1.user_policy with min := s.min } }
    else p1
  let p3 := if s.max ≠ 0 then
      { p2 with max := s.max, user_policy := { p2.user_policy with max := s.max } }
    else p2
  let w1 := { w0 with heap := upd w0.heap nid p3 }
  match (p3.cpus.filter (fun j => j ≠ cpu)).find? (fun j => (w1.cpuData j).isSome) with
  | none => (0, w1, ⟨[], []⟩)
  | some j =>
    match w1.cpuData j with
    | none => (0, w1, ⟨[], []⟩)
    | some mid =>
      let w2 := { w1 with policyCpu := upd w1.policyCpu cpu (Int.ofNat (w1.heap mid).cpu) }
      if ¬ cpu ∈ w2.online then
        (-EBUSY, w2, ⟨if env.drv.hasExit then [nid] else [], []⟩)
      else
        let st := cpufreq_governor env.govEnv (w2.heap mid) .stop
        let m2 := { st.2.1 with cpus := p3.cpus.filter (fun k => k ∈ w2.online) }
        let w3 := { w2 with heap := upd w2.heap mid m2,
                            cpuData := upd w2.cpuData cpu (some mid) }
        let sg := cpufreq_governor env.govEnv m2 .start
        let lg := cpufreq_governor env.govEnv sg.2.1 .limits
        let w4 := { w3 with heap := upd w3.heap mid lg.2.1 }
        let lr := env.symlinkRet cpu
        let tr : Trace := ⟨if env.drv.hasExit then [nid] else [],
                           st.2.2 ++ sg.2.2 ++ lg.2.2⟩
        if lr = 0 then (1, w4, tr) else (lr, w4, tr)

/-- Shallow embedding of cpufreq_add_dev_symlink (cpufreq.c:1193-1219):
the first failing sysfs_create_link among the other online CPUs of the
policy, else 0. -/
def cpufreq_add_dev_symlink (env : CoreEnv) (w : World) (cpu nid : Nat) : Int :=
  let js := (w.heap nid).cpus.filter (fun j => j ≠ cpu ∧ j ∈ w.online)
  match js.find? (fun j => env.symlinkRet j ≠ 0) with
  | some j => env.symlinkRet j
  | none => 0

/-- Shallow embedding of cpufreq_add_dev_interface (cpufreq.c:1221-1294):
kobject and sysfs file creation, binding of the online member CPUs into
cpufreq_cpu_data, symlinks, then the initial __cpufreq_set_policy with the
policy's own state as candidate (after forcing governor = NULL so the
start sequence runs).  On set-policy failure the driver's exit is called. -/
def cpufreq_add_dev_interface (env : CoreEnv) (w0 : World) (cpu nid : Nat) :
    Int × World × Trace :=
  if env.kobjRet ≠ 0 then (env.kobjRet, w0, ⟨[], []⟩)
  else if env.drvAttrRet ≠ 0 then (env.drvAttrRet, w0, ⟨[], []⟩)
  else if env.drv.hasGet ∧ env.cpuinfoCurRet ≠ 0 then (env.cpuinfoCurRet, w0, ⟨[], []⟩)
  else if env.scalingCurRet ≠ 0 then (env.scalingCurRet, w0, ⟨[], []⟩)
  else if env.drv.hasBios ∧ env.biosRet ≠ 0 then (env.biosRet, w0, ⟨[], []⟩)
  else
    let p := w0.heap nid
    let members := p.cpus.filter (fun j => j ∈ w0.online)
    let w1 := { w0 with
      cpuData := fun k => if k ∈ members then some nid else w0.cpuData k,
      policyCpu := fun k => if k ∈ members then Int.ofNat p.cpu else w0.policyCpu k }
    let lr := cpufreq_add_dev_symlink env w1 cpu nid
    if lr ≠ 0 then (lr, w1, ⟨[], []⟩)
    else
      let new_policy := w1.heap nid
      let p1 := { w1.heap nid with governor := none }
      let res := cpufreq_set_policy env.setEnv env.govEnv p1 new_policy
      let p2 := { res.data with
        user_policy := { res.data.user_policy with
          policy := res.data.policy, governor := res.data.governor } }
      let w2 := { w1 with heap := upd w1.heap nid p2 }
      if res.ret ≠ 0 then
        (res.ret, w2, ⟨if env.drv.hasExit then [nid] else [], res.calls⟩)
      else (0, w2, ⟨[], res.calls⟩)

/-- Shallow embedding of cpufreq_add_dev (cpufreq.c:1306-1438): allocation,
sibling-governor inheritance, driver init, intersection with the online
mask, user_policy seeding, CPUFREQ_START broadcast, then
cpufreq_add_dev_policy and cpufreq_add_dev_interface with their unwind
paths. -/
def cpufreq_add_dev (env : CoreEnv) (w0 : World) (cpu : Nat) : Int × World × Trace :=
  if ¬ cpu ∈ w0.online then (0, w0, ⟨[], []⟩)
  else
    match w0.cpuData cpu with
    | some _ => (0, w0, ⟨[], []⟩)
    | none =>
      if ¬ env.moduleGetOk then (-EINVAL, w0, ⟨[], []⟩)
      else if ¬ env.allocOk then (-ENOMEM, w0, ⟨[], []⟩)
      else
        let nid := w0.nextId
        let base := blankPolicy cpu
        let w1 := { w0 with heap := upd w0.heap nid base, nextId := w0.nextId + 1,
                            policyCpu := upd w0.policyCpu cpu (Int.ofNat cpu) }
        let sib := w1.online.find? (fun s =>
          match w1.cpuData s with
          | some i => (w1.heap i).governor.isSome && decide (cpu ∈ (w1.heap i).related_cpus)
          | none => false)
        let gov0 : Option Governor := match sib with
          | some s => match w1.cpuData s with
                      | some i => (w1.heap i).governor
                      | none => some env.defaultGov
          | none => some env.defaultGov
        let p0 := { base with governor := gov0 }
        if env.initRet ≠ 0 then
          (env.initRet, { w1 with heap := upd w1.heap nid p0 }, ⟨[], []⟩)
        else
          let p1 := { p0 with min := env.initMin, max := env.initMax, cur := env.initCur,
                              cpuinfo := env.initCpuinfo, related_cpus := env.initRelated }
          let p2 := { p1 with cpus := p1.cpus.filter (fun j => j ∈ w1.online) }
          let p3 := { p2 with
            user_policy := { p2.user_policy with min := p2.min, max := p2.max },
            util := 0 }
          let p4 := env.startChain p3
          let w2 := { w1 with heap := upd w1.heap nid p4 }
          let r1 := cpufreq_add_dev_policy env w2 cpu nid
          if r1.1 ≠ 0 then
            ((if r1.1 > 0 then 0 else r1.1), r1.2.1, r1.2.2)
          else
            let r2 := cpufreq_add_dev_interface env r1.2.1 cpu nid
            if r2.1 ≠ 0 then
              let w4 := r2.2.1
              let w5 := { w4 with
                cpuData := fun k => if k ∈ (w4.heap nid).cpus then none else w4.cpuData k }
              (r2.1, w5, ⟨r1.2.2.exits ++ r2.2.2.exits, r1.2.2.govCalls ++ r2.2.2.govCalls⟩)
            else
              (0, r2.2.1, ⟨r1.2.2.exits ++ r2.2.2.exits, r1.2.2.govCalls ++ r2.2.2.govCalls⟩)

/-- Shallow embedding of __cpufreq_remove_dev (cpufreq.c:1448-1589), with
a fuel bound for the sibling-promotion recursion (the recursion depth is
at most one in the kernel: the recursive call finds the CPU unmapped).
Covers the sibling-leaving path, and for the owning CPU: the hotplug
snapshot, sibling unbinding and re-snapshotting, governor stop for target
drivers, driver exit, and owner promotion via cpufreq_add_dev. -/
def cpufreq_remove_dev_core (env : CoreEnv) : Nat → World → Nat → Int × World × Trace
  | 0, w, _ => (-EINVAL, w, ⟨[], []⟩)
  | fuel+1, w0, cpu =>
    match w0.cpuData cpu with
    | none => (-EINVAL, w0, ⟨[], []⟩)
    | some did =>
      let data := w0.heap did
      let w1 := { w0 with cpuData := upd w0.cpuData cpu none }
      if cpu ≠ data.cpu then
        let st := cpufreq_governor env.govEnv data .stop
        let d2 := { st.2.1 with cpus := st.2.1.cpus.filter (fun k => k ≠ cpu) }
        let sg := cpufreq_governor env.govEnv d2 .start
        let lg := cpufreq_governor env.govEnv sg.2.1 .limits
        (0, { w1 with heap := upd w1.heap did lg.2.1 },
         ⟨[], st.2.2 ++ sg.2.2 ++ lg.2.2⟩)
      else
        let gname := match data.governor with
          | some g => g.name
          | none => ""
        let snap : SavedPolicy := ⟨gname, data.user_policy.min, data.user_policy.max⟩
        let w2 := { w1 with save := upd w1.save cpu snap }
        let others := data.cpus.filter (fun j => j ≠ cpu)
        let w3 := if data.cpus.length > 1 then
            { w2 with cpuData := fun k => if k ∈ others then none else w2.cpuData k,
                      save := fun k => if k ∈ others then snap else w2.save k }
          else w2
        let stopStep : Policy × List GovCall :=
          if env.drv.hasTarget then
            let st := cpufreq_governor env.govEnv data .stop
            (st.2.1, st.2.2)
          else (data, [])
        let w4 := { w3 with heap := upd w3.heap did stopStep.1 }
        let exits0 : List Nat := if env.drv.hasExit then [did] else []
        if data.cpus.length > 1 then
          let d2 := { stopStep.1 with cpus := stopStep.1.cpus.filter (fun k => k ≠ cpu) }
          let w5 := { w4 with heap := upd w4.heap did d2 }
          match d2.cpus with
          | [] => (0, w5, ⟨exits0, stopStep.2⟩)
          | first :: _ =>
            let ra := cpufreq_add_dev env w5 first
            let rr := cpufreq_remove_dev_core env fuel ra.2.1 cpu
            (0, rr.2.1, ⟨exits0 ++ ra.2.2.exits ++ rr.2.2.exits,
                         stopStep.2 ++ ra.2.2.govCalls ++ rr.2.2.govCalls⟩)
        else (0, w4, ⟨exits0, stopStep.2⟩)

/-- Shallow embedding of cpufreq_parse_governor (cpufreq.c:384-428):
setpolicy drivers accept the two policy-kind names; target drivers look
the name up in the registered governor list (module auto-loading is
outside the model). -/
def cpufreq_parse_governor (env : CoreEnv) (s : String) : Option (Sum Nat Governor) :=
  if env.setEnv.hasSetpolicy then
    if nameMatches s "performance" then some (Sum.inl CPUFREQ_POLICY_PERFORMANCE)
    else if nameMatches s "powersave" then some (Sum.inl CPUFREQ_POLICY_POWERSAVE)
    else none
  else if env.drv.hasTarget then
    match find_governor env.governors s with
    | some t => some (Sum.inr t)
    | none => none
  else none

/-- Shallow embedding of store_scaling_governor (cpufreq.c:666-701).
`lookupOk` models cpufreq_get_policy succeeding; `buf` the written string
(empty models a sscanf failure).  After the inner __cpufreq_set_policy the
handler clamps the live policy's max to 2803200 unconditionally. -/
def store_scaling_governor (env : CoreEnv) (lookupOk : Bool) (policy : Policy)
    (buf : String) : Int × Policy :=
  if ¬ lookupOk then (-EINVAL, policy)
  else if buf = "" then (-EINVAL, policy)
  else
    match cpufreq_parse_governor env buf with
    | none => (-EINVAL, policy)
    | some pg =>
      let new_policy := match pg with
        | Sum.inl k => { policy with policy := k }
        | Sum.inr g => { policy with governor := some g }
      let res := cpufreq_set_policy env.setEnv env.govEnv policy new_policy
      let live1 := res.data
      let live2 := if live1.max > 2803200 then { live1 with max := 2803200 } else live1
      let live3 := { live2 with
        user_policy := { live2.user_policy with
          policy := live2.policy, governor := live2.governor } }
      (res.ret, live3)

/-- Which governor is running after a sequence of governor callbacks,
starting from `g0`: a successful START makes its governor running, a
successful STOP makes none running, LIMITS and failed calls change
nothing. -/
def runningGovAfter (g0 : Option String) (calls : List GovCall) : Option String :=
  calls.foldl (fun s c =>
    match c.event with
    | .start => if c.ret = 0 then some c.gname else s
    | .stop => if c.ret = 0 then none else s
    | .limits => s) g0
/-- C5: in every Policy-Set call the requested bounds are first clamped
against the PM-QoS floor/ceiling, and the call is rejected with -EINVAL
before any commit of effective bounds whenever the clamped min exceeds
user_policy.max or the clamped max is below user_policy.min. -/
theorem set_policy_rejects_bounds_conflict (env : SetEnv) (genv : GovEnv)
    (data policy0 : Policy)
    (h : boundsConflict env data policy0.min policy0.max = true) :
    (cpufreq_set_policy env genv data policy0).ret = -EINVAL ∧
    (cpufreq_set_policy env genv data policy0).data = data := by
  unfold cpufreq_set_policy
  simp [h]
/-- Identity-oracle SetEnv used by concrete instances: QoS floor 1000000,
QoS ceiling 2000000, accepting verify, non-mutating notifier chains,
setpolicy-style driver succeeding. -/
def idSetEnv : SetEnv :=
  { qosMin := 1000000, qosMax := 2000000,
    verify := fun a b => (0, a, b),
    adjust := fun a b => (a, b),
    incompatible := fun a b => (a, b),
    notify := fun a b => (a, b),
    hasSetpolicy := true, setpolicyRet := 0 }

/-- GovEnv with no fallback governor, modules always available, callbacks
always succeeding. -/
def idGovEnv : GovEnv :=
  { perfGov := none, moduleGet := fun _ => true, govRun := fun _ _ => 0 }

/-- A live policy whose user bounds are 800000..1600000. -/
def policyA : Policy :=
  { cpu := 0, cpus := [0], related_cpus := [0], min := 800000, max := 1600000,
    cur := 998400, util := 0, policy := 0, governor := none,
    user_policy := { min := 800000, max := 1600000, policy := 0, governor := none },
    cpuinfo := { min_freq := 300000, max_freq := 2649600, transition_latency := 1000 } }

/-- Witness for C5: a candidate min of 1700000 exceeds user_policy.max =
1600000 after clamping, so the call fails with -EINVAL and leaves the live
policy untouched. -/
theorem set_policy_rejects_bounds_conflict_witness :
    boundsConflict idSetEnv policyA { policyA with min := 1700000, max := 1700000 }.min
      { policyA with min := 1700000, max := 1700000 }.max = true ∧
    (cpufreq_set_policy idSetEnv idGovEnv policyA
      { policyA with min := 1700000, max := 1700000 }).ret = -EINVAL ∧
    (cpufreq_set_policy idSetEnv idGovEnv policyA
      { policyA with min := 1700000, max := 1700000 }).data = policyA :=
  ⟨by decide,
   (set_policy_rejects_bounds_conflict idSetEnv idGovEnv policyA
     { policyA with min := 1700000, max := 1700000 } (by decide)).1,
   (set_policy_rejects_bounds_conflict idSetEnv idGovEnv policyA
     { policyA with min := 1700000, max := 1700000 } (by decide)).2⟩
/-- C10: if __cpufreq_set_policy returns its error from the bounds-conflict
check or from either driver verify invocation, the live policy's min, max,
policy kind and governor are unchanged: commit and governor transitions
happen only after both verifies succeed. -/
theorem set_policy_early_error_preserves_data (env : SetEnv) (genv : GovEnv)
    (data policy0 : Policy)
    (h : boundsConflict env data policy0.min policy0.max = true ∨
         (verifyStage1 env data policy0.min policy0.max).1 ≠ 0 ∨
         (verifyStage2 env data policy0.min policy0.max).1 ≠ 0) :
    (cpufreq_set_policy env genv data policy0).data.min = data.min ∧
    (cpufreq_set_policy env genv data policy0).data.max = data.max ∧
    (cpufreq_set_policy env genv data policy0).data.policy = data.policy ∧
    (cpufreq_set_policy env genv data policy0).data.governor = data.governor := by
  have hd : (cpufreq_set_policy env genv data policy0).data = data := by
    unfold cpufreq_set_policy
    by_cases hc : boundsConflict env data policy0.min policy0.max
    · simp [hc]
    · by_cases h1 : (verifyStage1 env data policy0.min policy0.max).1 = 0
      · by_cases h2 : (verifyStage2 env data policy0.min policy0.max).1 = 0
        · rcases h with h | h | h
          · exact absurd h (by simp [hc])
          · exact absurd h1 h
          · exact absurd h2 h
        · simp [hc, h1, h2]
      · simp [hc, h1]
  rw [hd]
  exact ⟨rfl, rfl, rfl, rfl⟩

/-- Witness for C10: the first verify rejecting (here because the clamped
candidate min 1000000 is reported as a failure by the driver oracle)
leaves the live policy's four fields unchanged. -/
theorem set_policy_early_error_preserves_data_witness :
    ((verifyStage1 { idSetEnv with verify := fun a b => (-EINVAL, a, b) } policyA
        policyA.min policyA.max).1 ≠ 0) ∧
    ((cpufreq_set_policy { idSetEnv with verify := fun a b => (-EINVAL, a, b) }
        idGovEnv policyA policyA).data.min = policyA.min ∧
     (cpufreq_set_policy { idSetEnv with verify := fun a b => (-EINVAL, a, b) }
        idGovEnv policyA policyA).data.max = policyA.max ∧
     (cpufreq_set_policy { idSetEnv with verify := fun a b => (-EINVAL, a, b) }
        idGovEnv policyA policyA).data.policy = policyA.policy ∧
     (cpufreq_set_policy { idSetEnv with verify := fun a b => (-EINVAL, a, b) }
        idGovEnv policyA policyA).data.governor = policyA.governor) :=
  ⟨by decide,
   set_policy_early_error_preserves_data
     { idSetEnv with verify := fun a b => (-EINVAL, a, b) } idGovEnv policyA policyA
     (Or.inr (Or.inl (by decide)))⟩
/-- Helper: __cpufreq_governor never touches the policy's user_policy. -/
theorem cpufreq_governor_user_policy (genv : GovEnv) (p : Policy) (e : GovEvent) :
    (cpufreq_governor genv p e).2.1.user_policy = p.user_policy := by
  unfold cpufreq_governor
  rcases hg : p.governor with _ | g0
  · rfl
  · simp only []
    rcases hp : genv.perfGov with _ | gov
    · simp only [hp]
      split_ifs with hl
      · simp
      · by_cases hm : genv.moduleGet g0.name <;> simp [hm]
    · simp only [hp]
      split_ifs with hl
      · by_cases hm : genv.moduleGet gov.name <;> simp [hm]
      · by_cases hm : genv.moduleGet g0.name <;> simp [hm]
/-- C1 (amended): on exit __cpufreq_set_policy restores the candidate's
min/max to the caller's original unclamped request, and the unclamped user
intent survives in the live policy's user_policy fields (read back via
policy_min_freq/policy_max_freq); the live min/max that scaling_min_freq
and scaling_max_freq read hold the committed, QoS-clamped effective
bounds, not the unclamped request. -/
theorem set_policy_restores_requested_bounds (env : SetEnv) (genv : GovEnv)
    (data policy0 : Policy) :
    (cpufreq_set_policy env genv data policy0).policy.min = policy0.min ∧
    (cpufreq_set_policy env genv data policy0).policy.max = policy0.max ∧
    show_policy_min_freq (cpufreq_set_policy env genv data policy0).data =
      show_policy_min_freq data ∧
    show_policy_max_freq (cpufreq_set_policy env genv data policy0).data =
      show_policy_max_freq data := by
  unfold cpufreq_set_policy
  simp only [show_policy_min_freq, show_policy_max_freq]
  repeat' split
  all_goals simp [cpufreq_governor_user_policy]
/-- Counterexample to C1 as stated: the user requests min = 800000 while a
PM-QoS floor of 1000000 is active; the Policy-Set call succeeds and the
candidate is restored to 800000, but reading scaling_min_freq afterwards
yields the clamped 1000000, not the unclamped request (which is only
preserved in user_policy / policy_min_freq). -/
theorem store_scaling_min_freq_reads_back_clamped :
    (store_scaling_min_freq idSetEnv idGovEnv true 0 policyA 800000).1 = 0 ∧
    show_scaling_min_freq (store_scaling_min_freq idSetEnv idGovEnv true 0 policyA 800000).2
      = 1000000 ∧
    show_policy_min_freq (store_scaling_min_freq idSetEnv idGovEnv true 0 policyA 800000).2
      = 800000 ∧
    ¬ show_scaling_min_freq (store_scaling_min_freq idSetEnv idGovEnv true 0 policyA 800000).2
      = 800000 := by
  decide
/-- Helper: __cpufreq_governor on a latency-compatible governor whose
module is available reduces to one callback invocation. -/
theorem cpufreq_governor_run (genv : GovEnv) (p : Policy) (g : Governor)
    (hg : p.governor = some g) (hlat : g.max_transition_latency = 0)
    (hm : genv.moduleGet g.name = true) (e : GovEvent) :
    cpufreq_governor genv p e =
      (genv.govRun g.name e, p, [⟨g.name, e, genv.govRun g.name e⟩]) := by
  unfold cpufreq_governor
  simp [hg, hlat, hm]

/-- C3: in a governor-switching Policy-Set call where START of the new
governor B fails, the live policy's governor is restored to the previous
governor A, START is re-attempted with A, and the call returns -EINVAL;
with A previously running and A's re-START succeeding, A is running after
the failed call. -/
theorem set_policy_governor_rollback (env : SetEnv) (genv : GovEnv)
    (data policy0 : Policy) (A B : Governor)
    (hsp : env.hasSetpolicy = false)
    (hA : data.governor = some A)
    (hB : policy0.governor = some B)
    (hne : B ≠ A)
    (hconf : boundsConflict env data policy0.min policy0.max = false)
    (hv1 : (verifyStage1 env data policy0.min policy0.max).1 = 0)
    (hv2 : (verifyStage2 env data policy0.min policy0.max).1 = 0)
    (hlatA : A.max_transition_latency = 0)
    (hlatB : B.max_transition_latency = 0)
    (hmA : genv.moduleGet A.name = true)
    (hmB : genv.moduleGet B.name = true)
    (hBfail : genv.govRun B.name GovEvent.start ≠ 0)
    (hAok : genv.govRun A.name GovEvent.start = 0) :
    (cpufreq_set_policy env genv data policy0).ret = -EINVAL ∧
    (cpufreq_set_policy env genv data policy0).data.governor = some A ∧
    (cpufreq_set_policy env genv data policy0).calls =
      [⟨A.name, GovEvent.stop, genv.govRun A.name GovEvent.stop⟩,
       ⟨B.name, GovEvent.start, genv.govRun B.name GovEvent.start⟩,
       ⟨A.name, GovEvent.start, 0⟩] ∧
    runningGovAfter (some A.name) (cpufreq_set_policy env genv data policy0).calls
      = some A.name := by
  have hgne : policy0.governor ≠ data.governor := by
    rw [hA, hB]
    intro h
    exact hne (Option.some.injEq B A ▸ h)
  unfold cpufreq_set_policy
  simp only [hconf, Bool.false_eq_true, if_false, hv1, ite_false, ne_eq,
    not_true_eq_false, hv2, hsp, if_true, not_false_eq_true]
  simp [hA, hB, hgne, hne, cpufreq_governor_run, hlatA, hlatB, hmA, hmB,
    hBfail, hAok, runningGovAfter]
/-- Governor A of the C3 rollback scenario. -/
def govA : Governor := ⟨"ondemand", 0⟩

/-- Governor B of the C3 rollback scenario. -/
def govB : Governor := ⟨"interactive", 0⟩

/-- Governor oracle where START of "interactive" fails and everything else
succeeds. -/
def c3GovEnv : GovEnv :=
  { perfGov := none, moduleGet := fun _ => true,
    govRun := fun n e => if n = "interactive" ∧ e = GovEvent.start then -EINVAL else 0 }

/-- The identity SetEnv for a target (governor-managed) driver. -/
def c3SetEnv : SetEnv := { idSetEnv with hasSetpolicy := false }

/-- Live policy running governor A. -/
def c3Data : Policy := { policyA with governor := some govA }

/-- Candidate requesting a switch to governor B. -/
def c3Req : Policy := { policyA with governor := some govB }

/-- Witness for C3: switching from running "ondemand" to "interactive"
whose START fails returns -EINVAL, restores and restarts "ondemand", and
leaves "ondemand" running. -/
theorem set_policy_governor_rollback_witness :
    (cpufreq_set_policy c3SetEnv c3GovEnv c3Data c3Req).ret = -EINVAL ∧
    (cpufreq_set_policy c3SetEnv c3GovEnv c3Data c3Req).data.governor = some govA ∧
    (cpufreq_set_policy c3SetEnv c3GovEnv c3Data c3Req).calls =
      [⟨govA.name, GovEvent.stop, c3GovEnv.govRun govA.name GovEvent.stop⟩,
       ⟨govB.name, GovEvent.start, c3GovEnv.govRun govB.name GovEvent.start⟩,
       ⟨govA.name, GovEvent.start, 0⟩] ∧
    runningGovAfter (some govA.name)
      (cpufreq_set_policy c3SetEnv c3GovEnv c3Data c3Req).calls = some govA.name :=
  set_policy_governor_rollback c3SetEnv c3GovEnv c3Data c3Req govA govB
    rfl rfl rfl (by decide) (by decide) (by decide) (by decide)
    rfl rfl rfl rfl (by decide) (by decide)
/-- C8: for both lock_policy_rwsem_read and lock_policy_rwsem_write (with
the BUG_ON precondition that the CPU has an owning-CPU entry), if the
target CPU is found offline after the semaphore is taken the call releases
the just-taken semaphore and returns -1, and on a successful (zero) return
the semaphore is held and the CPU was validated online after acquisition. -/
theorem lock_policy_rwsem_validates_online (policyCpu : Nat → Int)
    (online : Nat → Bool) (sem : Nat → Nat) (cpu : Nat)
    (h : policyCpu cpu ≠ -1) :
    ∃ r1 s1 r2 s2,
      lock_policy_rwsem_read policyCpu online sem cpu = some (r1, s1) ∧
      lock_policy_rwsem_write policyCpu online sem cpu = some (r2, s2) ∧
      (r1 = 0 ↔ online cpu = true) ∧ (r2 = 0 ↔ online cpu = true) ∧
      (online cpu = false →
        r1 = -1 ∧ r2 = -1 ∧ (∀ k, s1 k = sem k) ∧ (∀ k, s2 k = sem k)) ∧
      (online cpu = true →
        r1 = 0 ∧ r2 = 0 ∧
        s1 ((policyCpu cpu).toNat) = sem ((policyCpu cpu).toNat) + 1 ∧
        s2 ((policyCpu cpu).toNat) = sem ((policyCpu cpu).toNat) + 1) := by
  unfold lock_policy_rwsem_read lock_policy_rwsem_write lock_policy_rwsem_mode
  by_cases ho : online cpu
  · exact ⟨0, upd sem ((policyCpu cpu).toNat) (sem ((policyCpu cpu).toNat) + 1),
      0, upd sem ((policyCpu cpu).toNat) (sem ((policyCpu cpu).toNat) + 1),
      by simp [h, ho], by simp [h, ho], by simp [ho], by simp [ho],
      by simp [ho], by intro hof; simp⟩
  · have hrel : ∀ k,
        upd (upd sem ((policyCpu cpu).toNat) (sem ((policyCpu cpu).toNat) + 1))
          ((policyCpu cpu).toNat)
          ((upd sem ((policyCpu cpu).toNat) (sem ((policyCpu cpu).toNat) + 1))
            ((policyCpu cpu).toNat) - 1) k = sem k := by
      intro k
      by_cases hk : k = (policyCpu cpu).toNat <;> simp [upd, hk]
    exact ⟨-1,
      upd (upd sem ((policyCpu cpu).toNat) (sem ((policyCpu cpu).toNat) + 1))
        ((policyCpu cpu).toNat)
        ((upd sem ((policyCpu cpu).toNat) (sem ((policyCpu cpu).toNat) + 1))
          ((policyCpu cpu).toNat) - 1),
      -1,
      upd (upd sem ((policyCpu cpu).toNat) (sem ((policyCpu cpu).toNat) + 1))
        ((policyCpu cpu).toNat)
        ((upd sem ((policyCpu cpu).toNat) (sem ((policyCpu cpu).toNat) + 1))
          ((policyCpu cpu).toNat) - 1),
      by simp [h, ho], by simp [h, ho], by simp [ho], by simp [ho],
      by intro hof; exact ⟨rfl, rfl, hrel, hrel⟩,
      by intro hon; rw [hon] at ho; exact absurd rfl ho⟩
/-- Owning-CPU map for the C8 witness: every CPU's lock resolves to CPU 0. -/
def w8pc : Nat → Int := fun _ => 0

/-- Online predicate for the C8 witness. -/
def w8online : Nat → Bool := fun _ => true

/-- Initial semaphore hold counts for the C8 witness. -/
def w8sem : Nat → Nat := fun _ => 0

/-- Witness for C8 at CPU 2 with a valid owning-CPU entry. -/
theorem lock_policy_rwsem_validates_online_witness :
    w8pc 2 ≠ -1 ∧
    (∃ r1 s1 r2 s2,
      lock_policy_rwsem_read w8pc w8online w8sem 2 = some (r1, s1) ∧
      lock_policy_rwsem_write w8pc w8online w8sem 2 = some (r2, s2) ∧
      (r1 = 0 ↔ w8online 2 = true) ∧ (r2 = 0 ↔ w8online 2 = true) ∧
      (w8online 2 = false →
        r1 = -1 ∧ r2 = -1 ∧ (∀ k, s1 k = w8sem k) ∧ (∀ k, s2 k = w8sem k)) ∧
      (w8online 2 = true →
        r1 = 0 ∧ r2 = 0 ∧
        s1 ((w8pc 2).toNat) = w8sem ((w8pc 2).toNat) + 1 ∧
        s2 ((w8pc 2).toNat) = w8sem ((w8pc 2).toNat) + 1)) :=
  ⟨by decide, lock_policy_rwsem_validates_online w8pc w8online w8sem 2 (by decide)⟩
/-- C7 (amended): during PRECHANGE, when the driver does not claim
constant-loop-timing, the CPU named in freqs has a policy, that CPU is the
policy's owning CPU, and the policy's nonzero current frequency disagrees
with the reported old frequency, then freqs.old is corrected to the
policy's current frequency and the observers are notified with the
corrected value. -/
theorem notify_prechange_corrects_old (drv : DriverEnv) (w : World) (freqs : Freqs)
    (pid : Nat)
    (hcl : drv.constLoops = false)
    (hd : w.cpuData freqs.cpu = some pid)
    (hown : (w.heap pid).cpu = freqs.cpu)
    (hcur : (w.heap pid).cur ≠ 0)
    (hdis : (w.heap pid).cur ≠ freqs.old) :
    (cpufreq_notify_transition drv w freqs .prechange).1 =
      { freqs with old := (w.heap pid).cur } ∧
    (cpufreq_notify_transition drv w freqs .prechange).2.2 =
      [(.prechange, { freqs with old := (w.heap pid).cur })] := by
  unfold cpufreq_notify_transition
  simp [hcl, hd, hown, hcur, hdis]

/-- Driver shape for the desync scenarios: a target driver with a get hook
and no constant-loops claim. -/
def c4Drv : DriverEnv :=
  { hasGet := true, hasTarget := true, hasExit := true, hasBios := false,
    constLoops := false, getFreq := fun _ => 1200000 }

/-- Shared policy for the desync counterexamples: owned by CPU 0, also
governing CPU 1, believed to run at 1000000. -/
def c4Pol : Policy :=
  { cpu := 0, cpus := [0, 1], related_cpus := [0, 1], min := 300000, max := 2649600,
    cur := 1000000, util := 0, policy := 0, governor := none,
    user_policy := { min := 300000, max := 2649600, policy := 0, governor := none },
    cpuinfo := { min_freq := 300000, max_freq := 2649600, transition_latency := 1000 } }

/-- World with the shared policy bound for CPUs 0 and 1. -/
def c4World : World :=
  { online := [0, 1],
    cpuData := fun k => if k = 0 ∨ k = 1 then some 0 else none,
    heap := fun _ => c4Pol,
    policyCpu := fun k => if k = 0 ∨ k = 1 then 0 else -1,
    save := fun _ => ⟨"", 0, 0⟩,
    nextId := 1 }

/-- Counterexample to C7 as stated: a PRECHANGE for CPU 1 (a non-owning
member of the shared policy) whose reported old frequency 800000 disagrees
with the policy's current 1000000 is NOT corrected — the observers are
notified with the uncorrected 800000, because the correction also requires
freqs.cpu to be the policy's owning CPU. -/
theorem notify_prechange_noncorrection_counterexample :
    c4Drv.constLoops = false ∧
    (c4World.heap 0).cur = 1000000 ∧
    c4World.cpuData 1 = some 0 ∧
    (cpufreq_notify_transition c4Drv c4World ⟨1, 800000, 1200000⟩ .prechange).1.old
      = 800000 ∧
    ¬ (cpufreq_notify_transition c4Drv c4World ⟨1, 800000, 1200000⟩ .prechange).1.old
      = 1000000 := by
  decide

/-- Witness for C7 (amended): a PRECHANGE on the owning CPU 0 with the
disagreeing old frequency 800000 is corrected to 1000000. -/
theorem notify_prechange_corrects_old_witness :
    (cpufreq_notify_transition c4Drv c4World ⟨0, 800000, 1200000⟩ .prechange).1 =
      { (⟨0, 800000, 1200000⟩ : Freqs) with old := (c4World.heap 0).cur } ∧
    (cpufreq_notify_transition c4Drv c4World ⟨0, 800000, 1200000⟩ .prechange).2.2 =
      [(.prechange, { (⟨0, 800000, 1200000⟩ : Freqs) with old := (c4World.heap 0).cur })] :=
  notify_prechange_corrects_old c4Drv c4World ⟨0, 800000, 1200000⟩ 0
    rfl (by decide) rfl (by decide) (by decide)
/-- C4 (amended): when a direct hardware query on the policy's owning CPU
returns a nonzero value differing from the policy's nonzero current
frequency and the driver does not claim constant-loop-timing, __cpufreq_get
emits exactly one synthesized PRECHANGE+POSTCHANGE pair with old = the
previous current frequency and new = the queried value, sets the policy's
current frequency to the queried value, and schedules the asynchronous
policy reconciliation work. -/
theorem cpufreq_get_desync_repair (drv : DriverEnv) (w : World) (cpu pid : Nat)
    (hget : drv.hasGet = true)
    (hd : w.cpuData cpu = some pid)
    (hq : drv.getFreq cpu ≠ 0)
    (hc : (w.heap pid).cur ≠ 0)
    (hcl : drv.constLoops = false)
    (hne : drv.getFreq cpu ≠ (w.heap pid).cur)
    (hown : (w.heap pid).cpu = cpu) :
    cpufreq_get_core drv w cpu =
      some (drv.getFreq cpu,
        { w with heap := upd w.heap pid { w.heap pid with cur := drv.getFreq cpu } },
        [(.prechange, ⟨cpu, (w.heap pid).cur, drv.getFreq cpu⟩),
         (.postchange, ⟨cpu, (w.heap pid).cur, drv.getFreq cpu⟩)],
        true) ∧
    ((upd w.heap pid { w.heap pid with cur := drv.getFreq cpu }) pid).cur
      = drv.getFreq cpu := by
  unfold cpufreq_get_core cpufreq_out_of_sync cpufreq_notify_transition
  simp [hget, hd, hq, hc, hcl, hne, hown]

/-- Counterexample to C4 as stated: querying CPU 1, a non-owning member of
the shared policy, with current 1000000 and queried 1200000 does broadcast
the synthesized pair and schedule the reconciliation, but does NOT update
the policy's current frequency: the world is returned unchanged, so
current_freq stays 1000000 instead of the queried 1200000. -/
theorem cpufreq_get_nonowner_counterexample :
    cpufreq_get_core c4Drv c4World 1 =
      some (1200000, c4World,
        [(TransState.prechange, ⟨1, 1000000, 1200000⟩),
         (TransState.postchange, ⟨1, 1000000, 1200000⟩)], true) ∧
    (c4World.heap 0).cur = 1000000 ∧
    ¬ (1000000 : Nat) = 1200000 :=
  ⟨rfl, rfl, by decide⟩

/-- Witness for C4 (amended): the same desync on the owning CPU 0 updates
current frequency to 1200000 and emits the pair with old = 1000000. -/
theorem cpufreq_get_desync_repair_witness :
    (cpufreq_get_core c4Drv c4World 0 =
      some (c4Drv.getFreq 0,
        { c4World with
          heap := upd c4World.heap 0 { c4World.heap 0 with cur := c4Drv.getFreq 0 } },
        [(.prechange, ⟨0, (c4World.heap 0).cur, c4Drv.getFreq 0⟩),
         (.postchange, ⟨0, (c4World.heap 0).cur, c4Drv.getFreq 0⟩)],
        true)) ∧
    ((upd c4World.heap 0 { c4World.heap 0 with cur := c4Drv.getFreq 0 }) 0).cur
      = c4Drv.getFreq 0 :=
  cpufreq_get_desync_repair c4Drv c4World 0 0
    rfl rfl (by decide) (by decide) rfl (by decide) rfl
/-- C9 (amended): every store_scaling_governor invocation that reaches the
inner Policy-Set call (the policy snapshot succeeds and the written string
parses to a known governor or policy kind) leaves the live policy's max at
most 2803200, whatever the inner call did or returned. -/
theorem store_scaling_governor_clamps_max (env : CoreEnv) (policy : Policy)
    (buf : String)
    (hbuf : buf ≠ "")
    (hparse : (cpufreq_parse_governor env buf).isSome) :
    (store_scaling_governor env true policy buf).2.max ≤ 2803200 := by
  unfold store_scaling_governor
  rcases hp : cpufreq_parse_governor env buf with _ | pg
  · rw [hp] at hparse
    simp at hparse
  · simp only [hbuf, hp, not_true_eq_false, Bool.not_true, if_false, ite_false]
    split <;> split <;> simp_all
/-- CoreEnv for the store_scaling_governor scenarios: a target driver with
the "ondemand" governor registered and benign oracles everywhere. -/
def c9Env : CoreEnv :=
  { drv := c4Drv, setEnv := c3SetEnv, govEnv := idGovEnv,
    governors := [govA], defaultGov := govA,
    moduleGetOk := true, allocOk := true, initRet := 0,
    initMin := 300000, initMax := 2649600, initCur := 998400,
    initCpuinfo := { min_freq := 300000, max_freq := 2649600, transition_latency := 1000 },
    initRelated := [0], startChain := fun p => p,
    kobjRet := 0, drvAttrRet := 0, cpuinfoCurRet := 0, scalingCurRet := 0,
    biosRet := 0, symlinkRet := fun _ => 0 }

/-- A live policy whose max 3000000 already exceeds 2803200. -/
def c9Pol : Policy := { policyA with max := 3000000, governor := some govA }

/-- Counterexample to C9 as stated: writing an unknown governor name makes
store_scaling_governor return -EINVAL before the clamp runs, so the live
policy's max stays 3000000 > 2803200 after the invocation. -/
theorem store_scaling_governor_no_clamp_counterexample :
    (store_scaling_governor c9Env true c9Pol "foo").1 = -EINVAL ∧
    (store_scaling_governor c9Env true c9Pol "foo").2.max = 3000000 ∧
    ¬ (store_scaling_governor c9Env true c9Pol "foo").2.max ≤ 2803200 := by
  decide

/-- Witness for C9 (amended): writing the registered "ondemand" governor
reaches the inner Policy-Set call and the final max is at most 2803200. -/
theorem store_scaling_governor_clamps_max_witness :
    ("ondemand" : String) ≠ "" ∧
    (cpufreq_parse_governor c9Env "ondemand").isSome = true ∧
    (store_scaling_governor c9Env true c9Pol "ondemand").2.max ≤ 2803200 :=
  ⟨by decide, by decide,
   store_scaling_governor_clamps_max c9Env c9Pol "ondemand" (by decide) (by decide)⟩
/-- CoreEnv for the C2 failing input: platform init succeeds, but
kobject_init_and_add in cpufreq_add_dev_interface fails with -ENOMEM. -/
def c2Env : CoreEnv := { c9Env with kobjRet := -ENOMEM }

/-- World for the C2 failing input: CPU 2 online and unmanaged. -/
def c2World : World :=
  { online := [2], cpuData := fun _ => none, heap := fun _ => blankPolicy 0,
    policyCpu := fun _ => -1, save := fun _ => ⟨"", 0, 0⟩, nextId := 0 }

/-- C2 at the failing input: the driver's init succeeded, the driver has an
exit hook, a later step (kobject registration) failed and cpufreq_add_dev
returns the error -ENOMEM, yet no driver->exit call was made on the
provisional policy. -/
theorem cpufreq_add_dev_error_without_exit :
    c2Env.initRet = 0 ∧
    c2Env.drv.hasExit = true ∧
    (cpufreq_add_dev c2Env c2World 2).1 = -ENOMEM ∧
    (cpufreq_add_dev c2Env c2World 2).2.2.exits = [] := by
  decide
/-- The "powersave" governor of the C6 scenario. -/
def c6Gov : Governor := ⟨"powersave", 0⟩

/-- CoreEnv for the C6 hotplug scenario: target driver with exit hook,
"powersave" registered, no QoS interference, benign sysfs and driver
oracles. -/
def c6Env : CoreEnv :=
  { drv := { hasGet := false, hasTarget := true, hasExit := true, hasBios := false,
             constLoops := false, getFreq := fun _ => 0 },
    setEnv := { qosMin := 0, qosMax := 10000000,
                verify := fun a b => (0, a, b),
                adjust := fun a b => (a, b),
                incompatible := fun a b => (a, b),
                notify := fun a b => (a, b),
                hasSetpolicy := false, setpolicyRet := 0 },
    govEnv := idGovEnv,
    governors := [c6Gov], defaultGov := govA,
    moduleGetOk := true, allocOk := true, initRet := 0,
    initMin := 300000, initMax := 2649600, initCur := 998400,
    initCpuinfo := { min_freq := 300000, max_freq := 2649600, transition_latency := 1000 },
    initRelated := [], startChain := fun p => p,
    kobjRet := 0, drvAttrRet := 0, cpuinfoCurRet := 0, scalingCurRet := 0,
    biosRet := 0, symlinkRet := fun _ => 0 }

/-- The live policy of the C6 scenario on the given CPU: governor
"powersave", user bounds 900000..1400000. -/
def c6Pol (cpu : Nat) : Policy :=
  { cpu := cpu, cpus := [cpu], related_cpus := [cpu], min := 900000, max := 1400000,
    cur := 998400, util := 0, policy := 0, governor := some c6Gov,
    user_policy := { min := 900000, max := 1400000, policy := 0, governor := some c6Gov },
    cpuinfo := { min_freq := 300000, max_freq := 2649600, transition_latency := 1000 } }

/-- A world where the given CPU is online and governed by c6Pol. -/
def c6World (cpu : Nat) : World :=
  { online := [cpu],
    cpuData := fun k => if k = cpu then some 0 else none,
    heap := fun _ => c6Pol cpu,
    policyCpu := fun k => if k = cpu then Int.ofNat cpu else -1,
    save := fun _ => ⟨"", 0, 0⟩,
    nextId := 1 }

/-- C6: for every CPU whose policy has governor "powersave" and user
bounds 900000..1400000, removing the CPU and re-adding it yields a policy
that again has governor "powersave" and user bounds 900000..1400000: the
snapshot written by __cpufreq_remove_dev is consulted by
cpufreq_add_dev_policy before the Policy-Set protocol runs. -/
theorem remove_then_add_restores_intent (cpu : Nat) :
    (cpufreq_remove_dev_core c6Env 1 (c6World cpu) cpu).1 = 0 ∧
    (cpufreq_add_dev c6Env (cpufreq_remove_dev_core c6Env 1 (c6World cpu) cpu).2.1 cpu).1
      = 0 ∧
    (cpufreq_add_dev c6Env (cpufreq_remove_dev_core c6Env 1 (c6World cpu) cpu).2.1
      cpu).2.1.cpuData cpu = some 1 ∧
    ((cpufreq_add_dev c6Env (cpufreq_remove_dev_core c6Env 1 (c6World cpu) cpu).2.1
      cpu).2.1.heap 1).governor = some c6Gov ∧
    ((cpufreq_add_dev c6Env (cpufreq_remove_dev_core c6Env 1 (c6World cpu) cpu).2.1
      cpu).2.1.heap 1).user_policy.min = 900000 ∧
    ((cpufreq_add_dev c6Env (cpufreq_remove_dev_core c6Env 1 (c6World cpu) cpu).2.1
      cpu).2.1.heap 1).user_policy.max = 1400000 := by
  simp [cpufreq_remove_dev_core, cpufreq_add_dev, cpufreq_add_dev_policy,
    cpufreq_add_dev_interface, cpufreq_add_dev_symlink, cpufreq_set_policy,
    cpufreq_governor, find_governor, nameMatches, lowerCode, c6World, c6Pol, c6Env,
    c6Gov, govA, idGovEnv, blankPolicy, upd, boundsConflict, qosClampedMin,
    qosClampedMax, verifyStage1, verifyStage2, notifiedBounds, EINVAL, ENOMEM, EBUSY]
